import Mathlib

/-!
Verification of the client/server communication core of the PCEF (pyqode)
repository, file `pyqode/core/_internal/client.py`.

The development shallowly embeds the `JsonTcpClient` and `ServerProcess`
classes: bytes are natural numbers below 256, Python exceptions are the
`PyErr` type threaded through `Except`, the mutable fields set in
`JsonTcpClient.__init__` form the `ClientState` record, and the event
handlers (`_on_ready_read`, `_on_error`, `close`, `start`, `request_work`,
`_on_process_stdout_ready`, ...) become pure state-transition functions.
External library calls (`json.loads`, `str.decode`, `os.path.exists`) are
taken as function parameters, since their code is not part of the
repository.
-/

/-- A JSON value as produced by `json.loads`: `null`, booleans, numbers
(restricted to integers; no claim involves floats), strings, lists and
string-keyed objects. -/
inductive JVal where
  | null
  | bool (b : Bool)
  | num (n : Int)
  | str (s : String)
  | arr (elems : List JVal)
  | dict (fields : List (String × JVal))

/-- The Python exceptions that the translated code can raise.
`valueError` stands for both `UnicodeDecodeError` (a `ValueError`
subclass) from `bytes.decode` and the `ValueError` raised by
`json.loads` on malformed input. -/
inductive PyErr where
  | typeError
  | keyError
  | valueError
  | attributeError
  | assertionError
  | runtimeError
  | notConnectedError
deriving DecidableEq

/-- The pending-callback mapping `self._callbacks`: a dictionary from
request-id strings to callbacks. Callbacks are opaque in the source
(arbitrary Python callables), so they are represented by numeric
identities; invoking one is recorded as an `Invocation` event. -/
abbrev Callbacks := List (String × Nat)

/-- Dictionary lookup on the callback mapping (string keys are unique in
any mapping built by the translated operations). -/
def lookup_cb : Callbacks → String → Option Nat
  | [], _ => none
  | (k, v) :: rest, key => if k = key then some v else lookup_cb rest key

/-- Dictionary `pop`: removes the entry for the given key. -/
def pop_cb : Callbacks → String → Callbacks
  | [], _ => []
  | (k, v) :: rest, key => if k = key then rest else (k, v) :: pop_cb rest key

/-- Dictionary assignment `self._callbacks[request_id] = on_receive`:
replaces the value if the key is present, otherwise appends. -/
def set_cb : Callbacks → String → Nat → Callbacks
  | [], key, v => [(key, v)]
  | (k, w) :: rest, key, v =>
    if k = key then (k, v) :: rest else (k, w) :: set_cb rest key v

/-- Python subscription `obj[k]` for a string key `k` on a decoded JSON
value: objects yield the stored value or raise `KeyError`; every other
JSON value (string, list, number, bool, null) raises `TypeError`. -/
def getItem (obj : JVal) (k : String) : Except PyErr JVal :=
  match obj with
  | JVal.dict fields => getField fields k
  | _ => Except.error PyErr.typeError
where
  getField : List (String × JVal) → String → Except PyErr JVal
    | [], _ => Except.error PyErr.keyError
    | (k', v) :: rest, key => if k' = key then Except.ok v else getField rest key

/-- The `try` block of `_on_ready_read`: extract `obj['request_id']`,
`obj['results']` and `obj['status']`, in source order. -/
def get_response_fields (obj : JVal) : Except PyErr (JVal × JVal × JVal) := do
  let request_id ← getItem obj "request_id"
  let results ← getItem obj "results"
  let status ← getItem obj "status"
  pure (request_id, results, status)

/-- Membership test `request_id in self._callbacks` fused with the
subsequent `self._callbacks.pop(request_id)`. Hashing the key comes
first in CPython, so a decoded list or object raises `TypeError`
(unhashable type); hashable non-strings (numbers, bools, null) are never
equal to the string keys of the mapping. -/
def dict_member_pop (v : JVal) (cbs : Callbacks) :
    Except PyErr (Option (Nat × Callbacks)) :=
  match v with
  | JVal.arr _ => Except.error PyErr.typeError
  | JVal.dict _ => Except.error PyErr.typeError
  | JVal.str k =>
    match lookup_cb cbs k with
    | some cb => Except.ok (some (cb, pop_cb cbs k))
    | none => Except.ok none
  | _ => Except.ok none

/-- A callback invocation `callback(status, results)` observed as an
event. -/
structure Invocation where
  cb : Nat
  status : JVal
  results : JVal

/-- Lines 315-325 of `_on_ready_read`: try to read the three response
fields, on `TypeError`/`KeyError` pass (internal message, no callback);
otherwise pop and invoke the callback when the id is registered. The
membership test sits in the `else` clause of the `try`, so a `TypeError`
it raises is not caught. -/
def handleMessage (obj : JVal) (cbs : Callbacks) :
    Except PyErr (Callbacks × Option Invocation) :=
  match get_response_fields obj with
  | Except.error _ => Except.ok (cbs, none)
  | Except.ok (request_id, results, status) =>
    match dict_member_pop request_id cbs with
    | Except.error e => Except.error e
    | Except.ok none => Except.ok (cbs, none)
    | Except.ok (some (cb, rest)) => Except.ok (rest, some ⟨cb, status, results⟩)

/-- The state of the server process handle, as far as the client observes
it: the `running` flag maintained by `ServerProcess`. -/
structure ProcHandle where
  running : Bool

/-- The mutable fields assigned in `JsonTcpClient.__init__` (and the
decoding state of `_on_ready_read`). -/
structure ClientState where
  header_complete : Bool
  header_buf : List Nat
  to_read : Int
  data_buf : List Nat
  callbacks : Callbacks
  is_connected : Bool
  process : Option ProcHandle
  connection_attempts : Nat
  port : Int

/-- The state right after `JsonTcpClient.__init__`. -/
def initState : ClientState where
  header_complete := false
  header_buf := []
  to_read := 0
  data_buf := []
  callbacks := []
  is_connected := false
  process := none
  connection_attempts := 0
  port := -1

/-- Qt's `QIODevice.read(maxSize)` on the socket buffer: consumes at most
`maxSize` of the available bytes (and nothing when `maxSize` is zero or
negative), returning the bytes read and the bytes still available. -/
def sock_read (maxSize : Int) (avail : List Nat) : List Nat × List Nat :=
  if maxSize ≤ 0 then ([], avail)
  else (avail.take maxSize.toNat, avail.drop maxSize.toNat)

/-- The header decode `struct.unpack('=I', self._header_buf)`: four bytes
in native (little-endian) order; only ever applied to a buffer of exactly
four bytes. -/
def unpack_u32 : List Nat → Nat
  | [b0, b1, b2, b3] => b0 + 256 * b1 + 65536 * b2 + 16777216 * b3
  | _ => 0

/-- Outcome of one `_on_ready_read` slot invocation: normal return,
an uncaught Python exception escaping the slot (carrying the object state
and unconsumed socket bytes at that point), or failure of the `while`
loop to finish within the given step budget (the source loop can run
forever). `msgs` records each successfully `json.loads`-decoded message,
`calls` the callback invocations, in order. -/
inductive ReadResult where
  | ok (st : ClientState) (remaining : List Nat) (msgs : List JVal)
      (calls : List Invocation)
  | raised (e : PyErr) (st : ClientState) (remaining : List Nat)
      (msgs : List JVal) (calls : List Invocation)
  | outOfFuel

/-- The `while self.bytesAvailable()` loop of `_on_ready_read`
(lines 299-327). `loads` stands for `bytes.decode('utf-8')` composed with
`json.loads`, external library calls: `none` models the uncaught
`ValueError`/`UnicodeDecodeError` they raise on malformed payloads.
Each loop iteration mirrors the source: accumulate up to four header
bytes via `self.read(4)`, then `self._data_buf += self.read(self._to_read)`
followed by `self._to_read -= len(self._data_buf)` (the source subtracts
the length of the whole buffer, not of the chunk just read), decoding
only when `self._to_read == 0`. -/
def on_ready_read_loop (loads : List Nat → Option JVal) :
    Nat → ClientState → List Nat → List JVal → List Invocation → ReadResult
  | 0, _, _, _, _ => ReadResult.outOfFuel
  | fuel + 1, st, avail, msgs, calls =>
    if avail = [] then ReadResult.ok st avail msgs calls
    else if st.header_complete = false then
      let r := sock_read 4 avail
      let hb := st.header_buf ++ r.1
      if hb.length = 4 then
        on_ready_read_loop loads fuel
          { st with header_complete := true, to_read := (unpack_u32 hb : Int),
                    header_buf := [] } r.2 msgs calls
      else
        on_ready_read_loop loads fuel { st with header_buf := hb } r.2 msgs calls
    else
      let r := sock_read st.to_read avail
      let db := st.data_buf ++ r.1
      let tr := st.to_read - (db.length : Int)
      if tr = 0 then
        match loads db with
        | none =>
          ReadResult.raised PyErr.valueError
            { st with data_buf := db, to_read := tr } r.2 msgs calls
        | some obj =>
          match handleMessage obj st.callbacks with
          | Except.error e =>
            ReadResult.raised e { st with data_buf := db, to_read := tr } r.2
              (msgs ++ [obj]) calls
          | Except.ok (cbs, inv) =>
            on_ready_read_loop loads fuel
              { st with data_buf := [], to_read := tr, header_complete := false,
                        callbacks := cbs } r.2 (msgs ++ [obj])
              (calls ++ inv.toList)
      else
        on_ready_read_loop loads fuel { st with data_buf := db, to_read := tr }
          r.2 msgs calls

/-- One `_on_ready_read` event with the given bytes available on the
socket. -/
def on_ready_read (loads : List Nat → Option JVal) (fuel : Nat)
    (st : ClientState) (avail : List Nat) : ReadResult :=
  on_ready_read_loop loads fuel st avail [] []

/-- A sequence of `_on_ready_read` events: each chunk of newly arrived
bytes is appended to whatever the previous event left unconsumed in the
socket buffer. Messages and invocations accumulate across events. -/
def feed_chunks (loads : List Nat → Option JVal) (fuel : Nat) :
    ClientState → List Nat → List JVal → List Invocation → List (List Nat) →
    ReadResult
  | st, leftover, msgs, calls, [] => ReadResult.ok st leftover msgs calls
  | st, leftover, msgs, calls, chunk :: rest =>
    match on_ready_read_loop loads fuel st (leftover ++ chunk) msgs calls with
    | ReadResult.ok st' rem msgs' calls' =>
      feed_chunks loads fuel st' rem msgs' calls' rest
    | r => r

/-- A concrete instance of the external `decode`/`json.loads` pair, used
to evaluate the decoder on concrete frames: the ASCII payload "42"
(bytes 52, 50) parses to the JSON number 42; any other payload fails
(in particular the single byte 255, which is not valid UTF-8). -/
def loads42 (payload : List Nat) : Option JVal :=
  if payload = [52, 50] then some (JVal.num 42) else none

/-- Delay before retrying to connect to the server, in milliseconds
(module constant `TIMEOUT_BEFORE_RETRY`); passed to
`QTimer.singleShot` both for the initial post-spawn delay and between
connection retries. -/
def TIMEOUT_BEFORE_RETRY : Nat := 100

/-- Maximum number of connection attempts (module constant `MAX_RETRY`). -/
def MAX_RETRY : Nat := 100

/-- The socket error codes that have an entry in
`SOCKET_ERROR_STRINGS`; code 0 is
`QAbstractSocket.ConnectionRefusedError`. -/
def SOCKET_ERROR_CODES : List Int := [0, 1, 2, 3, 4, 5, 6, 7, -1]

/-- What the `_on_error` slot does after logging the error message:
schedule a delayed `_connect` retry, raise `RuntimeError` out of the
slot, or only log. -/
inductive ErrorAction where
  | scheduleRetry
  | raiseRuntimeError
  | logOnly
deriving DecidableEq

/-- `JsonTcpClient._on_error` (lines 275-287): unknown codes are
normalised to -1, the error string is logged in every branch, and only
`ConnectionRefusedError` (code 0) triggers the retry logic, which
raises `RuntimeError` once `self._connection_attempts` has reached
`MAX_RETRY`. `attempts` is the value of `self._connection_attempts` at
the time the slot runs. -/
def on_error (socket_error : Int) (attempts : Nat) : ErrorAction :=
  let err := if SOCKET_ERROR_CODES.contains socket_error then socket_error else -1
  if err = 0 then
    if attempts < MAX_RETRY then ErrorAction.scheduleRetry
    else ErrorAction.raiseRuntimeError
  else ErrorAction.logOnly

/-- `ServerProcess._on_process_error` (lines 90-101): returns silently
when the process is not marked running; otherwise it normalises the code
and evaluates `self._test_not_deleted`, an attribute that is never
assigned anywhere in the class, which raises `AttributeError` - and the
surrounding `try` only catches `RuntimeError`, so the `AttributeError`
escapes the slot. -/
def on_process_error (running : Bool) (_error : Int) : Except PyErr Unit :=
  if running = false then Except.ok ()
  else Except.error PyErr.attributeError

/-- The connect/retry cycle under persistent connection refusal: each
cycle runs `_connect` (which increments `self._connection_attempts` and
calls `connectToHost`), the connection is refused, and
`_on_error(ConnectionRefusedError)` either schedules the next cycle or
raises. Returns the list of attempt numbers made, newest last; `fuel`
bounds the number of cycles simulated. -/
def refusal_run : Nat → Nat → List Nat
  | 0, _ => []
  | fuel + 1, attempts =>
    let a := attempts + 1
    if on_error 0 a = ErrorAction.scheduleRetry then a :: refusal_run fuel a
    else [a]

/-- Externally visible steps taken by `close` and
`_terminate_server_process` (and, for contrast, the callback invocations
that `close` never performs). -/
inductive CloseAction where
  | sendShutdown
  | socketClose
  | terminateProcess
  | waitForFinished
  | invokeCallback (cb : Nat)
deriving DecidableEq

/-- `JsonTcpClient._terminate_server_process` (lines 154-157): guarded by
`if self._process and self._process.running`, so a `None` process is
left alone; `ServerProcess.terminate` clears the `running` flag before
terminating, then `waitForFinished` blocks until exit. -/
def terminate_server_process (st : ClientState) : ClientState × List CloseAction :=
  match st.process with
  | some p =>
    if p.running then
      ({ st with process := some ⟨false⟩ },
       [CloseAction.terminateProcess, CloseAction.waitForFinished])
    else (st, [])
  | none => (st, [])

/-- `JsonTcpClient.close` (lines 159-168): send the `'shutdown'`
notification only when connected and the process is running (Python's
`and` short-circuits, so `self._process.running` is only evaluated - and
can only raise `AttributeError` on a `None` process - when
`self.is_connected` is true), then close the socket, terminate the
server process and clear `is_connected`. The pending-callback mapping
`self._callbacks` is never touched. -/
def close (st : ClientState) : Except PyErr (ClientState × List CloseAction) :=
  match (if st.is_connected then
           match st.process with
           | none => Except.error PyErr.attributeError
           | some p => Except.ok p.running
         else Except.ok false : Except PyErr Bool) with
  | Except.error e => Except.error e
  | Except.ok cond =>
    let acts1 := (if cond then [CloseAction.sendShutdown] else []) ++ [CloseAction.socketClose]
    let tr := terminate_server_process st
    Except.ok ({ tr.1 with is_connected := false }, acts1 ++ tr.2)

/-- Externally visible steps taken by `start`: probing a free port
(`_pick_free_port`) and spawning the server process
(`self._process.start(program, pgm_args)`). -/
inductive StartAction where
  | pickFreePort
  | processStart (program : String) (args : List String)
deriving DecidableEq

/-- `JsonTcpClient.start` (lines 170-211). `path_exists` models
`os.path.exists` and `sys_exe` models `sys.executable`; `free_port` is
the port the OS hands out. The very first statement after the debug log
is `assert os.path.exists(server_script)`, so a missing script raises
`AssertionError` before the process object is created, before the port
is probed and before anything is spawned. The returned action list
records what was done before returning or raising. -/
def start (path_exists : String → Bool) (sys_exe : String) (free_port : Nat)
    (st : ClientState) (server_script : String) (interpreter : String)
    (args : List String) : List StartAction × Except PyErr ClientState :=
  if path_exists server_script = false then ([], Except.error PyErr.assertionError)
  else
    let interp := if interpreter = "" then sys_exe else interpreter
    let prog_and_args :=
      if server_script.endsWith ".exe" then (server_script, [toString free_port])
      else (interp, [server_script, toString free_port])
    ([StartAction.pickFreePort,
      StartAction.processStart prog_and_args.1 (prog_and_args.2 ++ args)],
     Except.ok { st with process := some ⟨false⟩, port := (free_port : Int) })

/-- `JsonTcpClient.request_work` (lines 213-235): raise
`NotConnectedError` unless the process exists, is running and the socket
is connected; otherwise build the class name, register the callback
under the fresh uuid `request_id` when one is given, and send the
request object. The returned `JVal` is the object passed to
`self.send`. -/
def request_work (st : ClientState) (module_name func_name request_id : String)
    (args : JVal) (on_receive : Option Nat) : Except PyErr (ClientState × JVal) :=
  match st.process with
  | none => Except.error PyErr.notConnectedError
  | some p =>
    if p.running = false then Except.error PyErr.notConnectedError
    else if st.is_connected = false then Except.error PyErr.notConnectedError
    else
      let classname := module_name ++ "." ++ func_name
      let cbs := match on_receive with
        | some cb => set_cb st.callbacks request_id cb
        | none => st.callbacks
      Except.ok ({ st with callbacks := cbs },
        JVal.dict [("request_id", JVal.str request_id),
                   ("worker", JVal.str classname), ("data", args)])

/-- Severity of a forwarded log record. -/
inductive LogLevel where
  | debug
  | info
  | error
deriving DecidableEq

/-- Python `str.rfind(c)` on a character list: highest index at which
`c` occurs, or -1 when it does not occur. -/
def rfind_aux (c : Char) : List Char → Int → Int → Int
  | [], _, best => best
  | x :: rest, i, best => rfind_aux c rest (i + 1) (if x = c then i else best)

/-- Python `s.rfind(c)`. -/
def py_rfind (s : List Char) (c : Char) : Int := rfind_aux c s 0 (-1)

/-- Python slicing `s[:i]` with an `int` bound: a non-negative bound
takes that many characters (clamped to the length); a negative bound
counts from the end, so `s[:-1]` - which is what `rfind` returning -1
produces here - drops the final character. -/
def py_slice_to (s : List Char) (i : Int) : List Char :=
  if i < 0 then s.take (s.length - (-i).toNat)
  else s.take i.toNat

/-- Split on the newline character, keeping empty pieces. -/
def split_nl : List Char → List (List Char)
  | [] => [[]]
  | c :: rest =>
    if c = '\n' then [] :: split_nl rest
    else
      match split_nl rest with
      | [] => [[c]]
      | piece :: pieces => (c :: piece) :: pieces

/-- Python `str.splitlines()` restricted to the `'\n'` separator (the
only one the claims involve): split on newlines and drop the final empty
piece left by a trailing newline. -/
def py_splitlines (s : List Char) : List (List Char) :=
  let pieces := split_nl s
  if pieces.getLast? = some [] then pieces.dropLast else pieces

/-- `ServerProcess._on_process_stdout_ready` (lines 108-112): decode the
chunk read from the child's standard output, truncate it at the LAST
newline (`output[:output.rfind('\n')]` - note that when no newline is
present `rfind` returns -1 and the slice drops the final character
instead), then log every resulting line at DEBUG level on the
`pyqode-server` logger. Nothing is buffered across reads: the handler
keeps no state, so whatever the truncation discards is lost. -/
def on_process_stdout_ready (chunk : List Char) : List (LogLevel × List Char) :=
  let output := py_slice_to chunk (py_rfind chunk '\n')
  (py_splitlines output).map (fun l => (LogLevel.debug, l))

/-- `ServerProcess._on_process_stderr_ready` (lines 114-118): same
truncation as the stdout handler, with each line logged at ERROR
level. -/
def on_process_stderr_ready (chunk : List Char) : List (LogLevel × List Char) :=
  let output := py_slice_to chunk (py_rfind chunk '\n')
  (py_splitlines output).map (fun l => (LogLevel.error, l))

theorem set_cb_eq_append (cbs : Callbacks) (rid : String) (cb : Nat)
    (h : lookup_cb cbs rid = none) : set_cb cbs rid cb = cbs ++ [(rid, cb)] := by
  induction cbs with
  | nil => rfl
  | cons hd tl ih =>
    obtain ⟨k, v⟩ := hd
    simp only [lookup_cb] at h
    by_cases hk : k = rid
    · simp [hk] at h
    · simp only [set_cb, if_neg hk] at h ⊢
      simp [ih h]

theorem lookup_cb_append (cbs : Callbacks) (rid : String) (cb : Nat)
    (h : lookup_cb cbs rid = none) :
    lookup_cb (cbs ++ [(rid, cb)]) rid = some cb := by
  induction cbs with
  | nil => simp [lookup_cb]
  | cons hd tl ih =>
    obtain ⟨k, v⟩ := hd
    simp only [lookup_cb] at h
    by_cases hk : k = rid
    · simp [hk] at h
    · simp only [List.cons_append, lookup_cb, if_neg hk] at h ⊢
      exact ih h

theorem pop_cb_append (cbs : Callbacks) (rid : String) (cb : Nat)
    (h : lookup_cb cbs rid = none) :
    pop_cb (cbs ++ [(rid, cb)]) rid = cbs := by
  induction cbs with
  | nil => simp [pop_cb]
  | cons hd tl ih =>
    obtain ⟨k, v⟩ := hd
    simp only [lookup_cb] at h
    by_cases hk : k = rid
    · simp [hk] at h
    · simp only [List.cons_append, pop_cb, if_neg hk] at h ⊢
      exact List.cons_eq_cons.mpr ⟨rfl, ih h⟩

theorem on_error_refused (attempts : Nat) :
    on_error 0 attempts =
      if attempts < MAX_RETRY then ErrorAction.scheduleRetry
      else ErrorAction.raiseRuntimeError := rfl

theorem refusal_run_le :
    ∀ (fuel a n : Nat), a < MAX_RETRY → n ∈ refusal_run fuel a → n ≤ MAX_RETRY := by
  intro fuel
  induction fuel with
  | zero => intro a n _ h; simp [refusal_run] at h
  | succ f ih =>
    intro a n ha h
    simp only [refusal_run] at h
    by_cases hlt : a + 1 < MAX_RETRY
    · rw [if_pos (by rw [on_error_refused, if_pos hlt])] at h
      rcases List.mem_cons.mp h with rfl | h'
      · omega
      · exact ih (a + 1) n hlt h'
    · rw [if_neg (by rw [on_error_refused, if_neg hlt]; simp)] at h
      simp only [List.mem_singleton] at h
      omega

theorem on_ready_read_loop_stuck (loads : List Nat → Option JVal) :
    ∀ (fuel : Nat) (st : ClientState) (avail : List Nat) (msgs : List JVal)
      (calls : List Invocation),
      st.header_complete = true → st.data_buf ≠ [] → st.to_read ≤ 0 → avail ≠ [] →
      on_ready_read_loop loads fuel st avail msgs calls = ReadResult.outOfFuel := by
  intro fuel
  induction fuel with
  | zero => intro st avail msgs calls _ _ _ _; rfl
  | succ f ih =>
    intro st avail msgs calls hc hd ht ha
    have hread : sock_read st.to_read avail = ([], avail) := by
      simp [sock_read, ht]
    have hlen : 0 < st.data_buf.length := List.length_pos.mpr hd
    have hne : ¬ (st.to_read - (st.data_buf.length : Int) = 0) := by omega
    simp only [on_ready_read_loop, if_neg ha, hc, hread]
    simp only [Bool.true_eq_false, if_false, List.append_nil]
    rw [if_neg hne]
    have htr : st.to_read - (st.data_buf.length : Int) ≤ 0 := by omega
    exact ih _ avail msgs calls rfl hd htr ha

theorem rfind_aux_of_not_mem (c : Char) :
    ∀ (l : List Char) (i best : Int), c ∉ l → rfind_aux c l i best = best := by
  intro l
  induction l with
  | nil => intro i best _; rfl
  | cons x rest ih =>
    intro i best h
    simp only [List.mem_cons, not_or] at h
    have hx : ¬ x = c := fun he => h.1 he.symm
    simp only [rfind_aux, if_neg hx]
    exact ih _ _ h.2

theorem rfind_aux_append (c : Char) :
    ∀ (a r : List Char) (i best : Int), c ∉ a →
      rfind_aux c (a ++ r) i best = rfind_aux c r (i + (a.length : Int)) best := by
  intro a
  induction a with
  | nil => intro r i best _; simp [rfind_aux]
  | cons x rest ih =>
    intro r i best h
    simp only [List.mem_cons, not_or] at h
    have hx : ¬ x = c := fun he => h.1 he.symm
    simp only [List.cons_append, rfind_aux, if_neg hx, List.append_eq]
    rw [ih r (i + 1) best h.2]
    congr 1
    simp only [List.length_cons]
    push_cast
    ring

theorem py_rfind_last_newline (a b : List Char) (ha : '\n' ∉ a) (hb : '\n' ∉ b) :
    py_rfind (a ++ '\n' :: b) '\n' = (a.length : Int) := by
  unfold py_rfind
  rw [rfind_aux_append '\n' a ('\n' :: b) 0 (-1) ha]
  simp only [rfind_aux, if_pos rfl]
  rw [rfind_aux_of_not_mem '\n' b _ _ hb]
  simp

theorem py_slice_to_length_append (a r : List Char) :
    py_slice_to (a ++ r) (a.length : Int) = a := by
  unfold py_slice_to
  rw [if_neg (by omega)]
  simp [List.take_left']

theorem split_nl_of_not_mem (a : List Char) (h : '\n' ∉ a) : split_nl a = [a] := by
  induction a with
  | nil => rfl
  | cons x rest ih =>
    simp only [List.mem_cons, not_or] at h
    have hx : ¬ x = '\n' := fun he => h.1 he.symm
    simp only [split_nl, if_neg hx]
    rw [ih h.2]

theorem py_splitlines_of_not_mem (a : List Char) (h : '\n' ∉ a) (hne : a ≠ []) :
    py_splitlines a = [a] := by
  unfold py_splitlines
  rw [split_nl_of_not_mem a h]
  simp [hne]

/-- C1: the claim asserts that framing is split-invariant. The code is
not: for the single frame header 02 00 00 00 plus payload "42",
delivering all bytes at once decodes the message (and two concatenated
frames in one read decode both, in order), but delivering the same six
bytes one per read event decodes nothing - after the first payload byte
`self._to_read -= len(self._data_buf)` subtracts the whole buffer
length, so after the second byte `_to_read` is -1 and the
`_to_read == 0` emission test can never succeed again. -/
theorem c1_framing_split_sensitivity :
    on_ready_read loads42 32 initState [2, 0, 0, 0, 52, 50]
        = ReadResult.ok initState [] [JVal.num 42] []
    ∧ on_ready_read loads42 32 initState
          ([2, 0, 0, 0, 52, 50] ++ [2, 0, 0, 0, 52, 50])
        = ReadResult.ok initState [] [JVal.num 42, JVal.num 42] []
    ∧ feed_chunks loads42 32 initState [] [] [] [[2], [0], [0], [0], [52], [50]]
        = ReadResult.ok
            { initState with header_complete := true, to_read := -1,
                             data_buf := [52, 50] }
            [] [] [] :=
  ⟨rfl, rfl, rfl⟩

/-- C2: with `MAX_RETRY = 100` and every connection attempt refused, the
client makes exactly the attempts numbered 1 to 100; the error handler
at attempt 100 raises `RuntimeError` instead of scheduling another
timer, and no run of the retry cycle - whatever its length budget -
ever contains an attempt number above 100. -/
theorem c2_retry_stops_after_max_retry :
    refusal_run 1000 0 = List.range' 1 100
    ∧ (refusal_run 1000 0).length = 100
    ∧ (∀ fuel n, n ∈ refusal_run fuel 0 → n ≤ MAX_RETRY)
    ∧ on_error 0 MAX_RETRY = ErrorAction.raiseRuntimeError
    ∧ MAX_RETRY = 100 ∧ TIMEOUT_BEFORE_RETRY = 100 := by
  refine ⟨by decide, by decide, ?_, rfl, rfl, rfl⟩
  intro fuel n h
  exact refusal_run_le fuel 0 n (by decide) h

/-- C2 witness: attempt 42 occurs in a 50-cycle refusal run and is,
as the theorem states, at most `MAX_RETRY`. -/
theorem c2_retry_witness : 42 ≤ MAX_RETRY :=
  c2_retry_stops_after_max_retry.2.2.1 50 42 (by decide)

/-- A client state with one pending callback, connected, with the server
process running: the scenario of claim C3. -/
def st_pending : ClientState :=
  { initState with is_connected := true, process := some ⟨true⟩,
                   callbacks := [("id1", 7)] }

/-- C3 counterexample: `close` on a connected client with the request
"id1" pending returns normally, but the pending-callback mapping is NOT
empty afterwards - `close` never touches `self._callbacks`, so the
entry is still there. -/
theorem c3_mapping_not_emptied :
    close st_pending
        = Except.ok ({ st_pending with is_connected := false, process := some ⟨false⟩ },
            [CloseAction.sendShutdown, CloseAction.socketClose,
             CloseAction.terminateProcess, CloseAction.waitForFinished])
    ∧ ({ st_pending with is_connected := false,
                         process := some ⟨false⟩ } : ClientState).callbacks
        = [("id1", 7)]
    ∧ ([("id1", 7)] : Callbacks) ≠ [] :=
  ⟨rfl, rfl, by simp⟩

/-- C3 amended: after `close()` while requests are pending, no pending
callback is invoked, but the mapping is left exactly as it was (the
entries leak) rather than being emptied. -/
theorem c3_close_abandons_pending_callbacks (st : ClientState) (p : ProcHandle)
    (hic : st.is_connected = true) (hp : st.process = some p) :
    ∃ st' acts, close st = Except.ok (st', acts)
      ∧ st'.callbacks = st.callbacks
      ∧ ∀ cb, CloseAction.invokeCallback cb ∉ acts := by
  cases hr : p.running with
  | true =>
    refine ⟨{ st with process := some ⟨false⟩, is_connected := false },
            [CloseAction.sendShutdown, CloseAction.socketClose,
             CloseAction.terminateProcess, CloseAction.waitForFinished],
            ?_, by simp, by simp⟩
    simp [close, hic, hp, hr, terminate_server_process]
  | false =>
    refine ⟨{ st with is_connected := false }, [CloseAction.socketClose],
            ?_, by simp, by simp⟩
    simp [close, hic, hp, hr, terminate_server_process]

/-- C3 witness: the amended statement applied to the concrete pending
state. -/
theorem c3_close_witness :
    ∃ st' acts, close st_pending = Except.ok (st', acts)
      ∧ st'.callbacks = st_pending.callbacks
      ∧ ∀ cb, CloseAction.invokeCallback cb ∉ acts :=
  c3_close_abandons_pending_callbacks st_pending ⟨true⟩ rfl rfl

/-- The decoder state left behind by a malformed payload: the frame was
fully read (`_to_read = 0`, payload byte 255 in `_data_buf`) but the
uncaught decode exception skipped the lines that reset
`_header_complete` and `_data_buf`. -/
def corrupt_state : ClientState :=
  { initState with header_complete := true, to_read := 0, data_buf := [255] }

/-- C4: the claim asserts a malformed payload is merely logged and that
framing resumes at the next header boundary. In the code there is no
handler around `decode`/`json.loads`: a frame carrying the invalid
payload byte 255 makes `_on_ready_read` raise `ValueError` out of the
slot with the decode state not reset, and the next read event - here
holding a following well-formed frame - then loops forever (out of any
finite step budget), so that frame is never decoded. -/
theorem c4_malformed_payload_uncaught :
    on_ready_read loads42 32 initState [1, 0, 0, 0, 255, 2, 0, 0, 0, 52, 50]
        = ReadResult.raised PyErr.valueError corrupt_state [2, 0, 0, 0, 52, 50] [] []
    ∧ ∀ fuel, on_ready_read_loop loads42 fuel corrupt_state [2, 0, 0, 0, 52, 50] [] []
        = ReadResult.outOfFuel := by
  refine ⟨rfl, ?_⟩
  intro fuel
  exact on_ready_read_loop_stuck loads42 fuel corrupt_state [2, 0, 0, 0, 52, 50] [] []
    rfl (by simp [corrupt_state]) (by simp [corrupt_state]) (by simp)

/-- C5 counterexample: exhaustion of the connect-retry budget is NOT
reported via a callback or event - `_on_error` (a slot run by the event
loop) raises `RuntimeError`, and the running-process error slot raises
`AttributeError` (its `self._test_not_deleted` probe is an attribute
that is never assigned, and only `RuntimeError` is caught). -/
theorem c5_retry_exhaustion_raises :
    on_error 0 MAX_RETRY = ErrorAction.raiseRuntimeError
    ∧ on_process_error true 0 = Except.error PyErr.attributeError
    ∧ ErrorAction.raiseRuntimeError ≠ ErrorAction.scheduleRetry
    ∧ ErrorAction.raiseRuntimeError ≠ ErrorAction.logOnly :=
  ⟨rfl, rfl, by decide, by decide⟩

/-- C5 amended: socket errors other than retry exhaustion are only
logged (never thrown across the event boundary); `request_work` while
disconnected fails synchronously with `NotConnectedError`; a process
error while the process is not marked running returns silently. Retry
exhaustion, by contrast, raises (see the counterexample). -/
theorem c5_error_reporting_amended :
    (∀ (e : Int) (a : Nat), e ≠ 0 → on_error e a = ErrorAction.logOnly)
    ∧ (∀ a : Nat, a < MAX_RETRY → on_error 0 a = ErrorAction.scheduleRetry)
    ∧ (∀ (st : ClientState) (mn fn rid : String) (args : JVal) (cb : Option Nat),
        st.is_connected = false →
        request_work st mn fn rid args cb = Except.error PyErr.notConnectedError)
    ∧ (∀ err : Int, on_process_error false err = Except.ok ()) := by
  refine ⟨?_, ?_, ?_, fun _ => rfl⟩
  · intro e a he
    unfold on_error
    cases hb : SOCKET_ERROR_CODES.contains e with
    | false => simp [hb]
    | true => simp [hb, he]
  · intro a ha
    rw [on_error_refused, if_pos ha]
  · intro st mn fn rid args cb hic
    unfold request_work
    cases hp : st.process with
    | none => rfl
    | some p =>
      cases hr : p.running with
      | false => simp [hr]
      | true => simp [hr, hic]

/-- C5 witness: the amended statement at concrete inputs - the
remote-host-closed error (code 1) is only logged, attempt 5 under
refusal schedules a retry, `request_work` on a fresh client raises
`NotConnectedError`, and a read error on a non-running process is
ignored. -/
theorem c5_error_reporting_witness :
    on_error 1 0 = ErrorAction.logOnly
    ∧ on_error 0 5 = ErrorAction.scheduleRetry
    ∧ request_work initState "mod" "func" "rid" JVal.null none
        = Except.error PyErr.notConnectedError
    ∧ on_process_error false 3 = Except.ok () :=
  ⟨c5_error_reporting_amended.1 1 0 (by decide),
   c5_error_reporting_amended.2.1 5 (by decide),
   c5_error_reporting_amended.2.2.1 initState "mod" "func" "rid" JVal.null none rfl,
   c5_error_reporting_amended.2.2.2 3⟩

/-- C6 counterexample: `start` on a filesystem where the script path
does not exist fails with a bare `AssertionError` (from
`assert os.path.exists(server_script)`) - the source defines no
`SpawnError` or `InvalidScriptError` - and the empty action list shows
that no port was probed and no process was spawned. -/
theorem c6_missing_script_assertion_error :
    start (fun _ => false) "python" 8080 initState "/path/to/worker.py" "python" []
        = ([], Except.error PyErr.assertionError)
    ∧ StartAction.pickFreePort ∉ ([] : List StartAction)
    ∧ ∀ prog pargs, StartAction.processStart prog pargs ∉ ([] : List StartAction) :=
  ⟨rfl, by simp, by simp⟩

/-- C6 amended: `start` with a non-existent script path fails
synchronously with `AssertionError`, before any port is probed and any
process is spawned. -/
theorem c6_missing_script_amended (path_exists : String → Bool) (sys_exe : String)
    (free_port : Nat) (st : ClientState) (script interp : String)
    (args : List String) (h : path_exists script = false) :
    start path_exists sys_exe free_port st script interp args
      = ([], Except.error PyErr.assertionError) := by
  simp [start, h]

/-- C6 witness: the amended statement at a concrete input. -/
theorem c6_missing_script_witness :
    start (fun _ => false) "py" 1 initState "server.py" "" []
      = ([], Except.error PyErr.assertionError) :=
  c6_missing_script_amended (fun _ => false) "py" 1 initState "server.py" "" [] rfl

/-- C7 counterexample: a standard-output read of "ab" (no newline)
forwards the truncated fragment "a" as a complete line - the claim says
an unterminated fragment is never forwarded and never lost, yet here it
is both mangled and partially dropped - and the line goes to the DEBUG
level, not the info level the claim names. -/
theorem c7_fragment_mangled :
    on_process_stdout_ready ['a', 'b'] = [(LogLevel.debug, ['a'])]
    ∧ LogLevel.debug ≠ LogLevel.info :=
  ⟨rfl, by decide⟩

/-- C7 amended: for a read consisting of one complete line followed by
an unterminated fragment, the handlers log exactly the complete line -
at DEBUG level for stdout and ERROR level for stderr - and the fragment
is discarded (the handlers keep no buffer between reads). -/
theorem c7_line_forwarding_amended (a b : List Char)
    (ha : '\n' ∉ a) (hb : '\n' ∉ b) (hne : a ≠ []) :
    on_process_stdout_ready (a ++ '\n' :: b) = [(LogLevel.debug, a)]
    ∧ on_process_stderr_ready (a ++ '\n' :: b) = [(LogLevel.error, a)] := by
  have hr : py_rfind (a ++ '\n' :: b) '\n' = (a.length : Int) :=
    py_rfind_last_newline a b ha hb
  have hs : py_slice_to (a ++ '\n' :: b) (a.length : Int) = a :=
    py_slice_to_length_append a ('\n' :: b)
  have hl : py_splitlines a = [a] := py_splitlines_of_not_mem a ha hne
  constructor
  · unfold on_process_stdout_ready
    rw [hr, hs]
    simp [hl]
  · unfold on_process_stderr_ready
    rw [hr, hs]
    simp [hl]

/-- C7 witness: the amended statement on the chunk "hi\nw". -/
theorem c7_line_forwarding_witness :
    on_process_stdout_ready (['h', 'i'] ++ '\n' :: ['w'])
        = [(LogLevel.debug, ['h', 'i'])]
    ∧ on_process_stderr_ready (['h', 'i'] ++ '\n' :: ['w'])
        = [(LogLevel.error, ['h', 'i'])] :=
  c7_line_forwarding_amended ['h', 'i'] ['w'] (by decide) (by decide) (by decide)

/-- C8: sending a request with a callback registers it under the fresh
`request_id`; dispatching a response carrying that id invokes the
callback exactly once, with exactly the status and results values of
the response, and removes the mapping entry - so dispatching a second
response with the same id invokes nothing and changes nothing (the
callback is popped before it is invoked). -/
theorem c8_callback_exactly_once (st : ClientState) (p : ProcHandle)
    (module_name func_name rid : String) (args status results : JVal) (cb : Nat)
    (hp : st.process = some p) (hrun : p.running = true)
    (hic : st.is_connected = true) (hfresh : lookup_cb st.callbacks rid = none) :
    request_work st module_name func_name rid args (some cb)
        = Except.ok ({ st with callbacks := st.callbacks ++ [(rid, cb)] },
            JVal.dict [("request_id", JVal.str rid),
                       ("worker", JVal.str (module_name ++ "." ++ func_name)),
                       ("data", args)])
    ∧ handleMessage
        (JVal.dict [("request_id", JVal.str rid), ("status", status),
                    ("results", results)])
        (st.callbacks ++ [(rid, cb)])
        = Except.ok (st.callbacks, some ⟨cb, status, results⟩)
    ∧ handleMessage
        (JVal.dict [("request_id", JVal.str rid), ("status", status),
                    ("results", results)])
        st.callbacks
        = Except.ok (st.callbacks, none) := by
  have hfields : get_response_fields
      (JVal.dict [("request_id", JVal.str rid), ("status", status),
                  ("results", results)])
      = Except.ok (JVal.str rid, results, status) := rfl
  refine ⟨?_, ?_, ?_⟩
  · unfold request_work
    cases hp' : st.process with
    | none => rw [hp'] at hp; exact absurd hp (by simp)
    | some q =>
      rw [hp'] at hp
      have hq : q = p := by injection hp
      subst hq
      simp [hrun, hic, set_cb_eq_append st.callbacks rid cb hfresh]
  · unfold handleMessage
    rw [hfields]
    simp only [dict_member_pop, lookup_cb_append st.callbacks rid cb hfresh,
               pop_cb_append st.callbacks rid cb hfresh]
  · unfold handleMessage
    rw [hfields]
    simp only [dict_member_pop, hfresh]

/-- A freshly constructed client whose socket is connected and whose
server process is running. -/
def st_connected : ClientState :=
  { initState with is_connected := true, process := some ⟨true⟩ }

/-- C8 witness: the round trip at concrete inputs - register callback 3
under id "rid", dispatch a response with status true and results 7,
then dispatch the same response again. -/
theorem c8_callback_witness :
    request_work st_connected "mod" "func" "rid" JVal.null (some 3)
        = Except.ok ({ st_connected with
              callbacks := st_connected.callbacks ++ [("rid", 3)] },
            JVal.dict [("request_id", JVal.str "rid"),
                       ("worker", JVal.str ("mod" ++ "." ++ "func")),
                       ("data", JVal.null)])
    ∧ handleMessage
        (JVal.dict [("request_id", JVal.str "rid"), ("status", JVal.bool true),
                    ("results", JVal.num 7)])
        (st_connected.callbacks ++ [("rid", 3)])
        = Except.ok (st_connected.callbacks, some ⟨3, JVal.bool true, JVal.num 7⟩)
    ∧ handleMessage
        (JVal.dict [("request_id", JVal.str "rid"), ("status", JVal.bool true),
                    ("results", JVal.num 7)])
        st_connected.callbacks
        = Except.ok (st_connected.callbacks, none) :=
  c8_callback_exactly_once st_connected ⟨true⟩ "mod" "func" "rid" JVal.null
    (JVal.bool true) (JVal.num 7) 3 rfl rfl rfl rfl

/-- C9 counterexample: the claim says a message whose `request_id` is
not in the mapping never raises. A decoded response whose `request_id`
is a JSON list - necessarily absent from the string-keyed mapping, here
even empty - raises `TypeError` from the membership test
`request_id in self._callbacks` (lists are unhashable), and that test
sits in the `else` clause of the `try`, outside the
`except (TypeError, KeyError)`. -/
theorem c9_unhashable_request_id_raises :
    handleMessage
      (JVal.dict [("request_id", JVal.arr []), ("results", JVal.null),
                  ("status", JVal.bool true)]) []
      = Except.error PyErr.typeError := rfl

/-- C9 amended: a decoded message that lacks the response shape (any of
the three field reads raises `TypeError`/`KeyError`), or whose
`request_id` is a hashable value not registered in the mapping, is
silently ignored: no exception, and the mapping - hence every other
pending callback - is left unchanged. An unhashable `request_id` (list
or object), however, raises `TypeError` (see the counterexample). -/
theorem c9_unsolicited_ignored_amended (obj : JVal) (cbs : Callbacks)
    (h : (∃ e, get_response_fields obj = Except.error e)
       ∨ (∃ rid res stv, get_response_fields obj = Except.ok (rid, res, stv)
            ∧ dict_member_pop rid cbs = Except.ok none)) :
    handleMessage obj cbs = Except.ok (cbs, none) := by
  unfold handleMessage
  rcases h with ⟨e, he⟩ | ⟨rid, res, stv, hok, hm⟩
  · rw [he]
  · simp only [hok, hm]

/-- C9 witness: the bare string notification "shutdown" (no response
shape) is ignored and the unrelated pending callback under "a" is
untouched. -/
theorem c9_unsolicited_witness :
    handleMessage (JVal.str "shutdown") [("a", 5)] = Except.ok ([("a", 5)], none) :=
  c9_unsolicited_ignored_amended (JVal.str "shutdown") [("a", 5)]
    (Or.inl ⟨PyErr.typeError, rfl⟩)

/-- C10: `close()` on a client that was never started (fresh
`__init__` state: no process object, socket never connected) returns
normally: the short-circuit `self.is_connected and self._process.running`
never evaluates the absent process handle, no shutdown notification is
sent, and `_terminate_server_process` touches nothing because
`self._process` is `None`. -/
theorem c10_close_never_started :
    close initState
        = Except.ok ({ initState with is_connected := false },
            [CloseAction.socketClose])
    ∧ CloseAction.sendShutdown ∉ [CloseAction.socketClose]
    ∧ CloseAction.terminateProcess ∉ [CloseAction.socketClose]
    ∧ CloseAction.waitForFinished ∉ [CloseAction.socketClose] :=
  ⟨rfl, by decide, by decide, by decide⟩
